import Mathlib

/-!
Verification of `src/webhook_server.py`: a single Flask endpoint `POST /webhook`
that parses a JSON body, logs receipt, forwards the payload to a fixed remote
URL via `requests.post`, and answers the caller with a JSON status.

Shallow embedding: the handler is a pure function of
  * the timestamp string computed at entry (`datetime.now().strftime(...)`),
  * the parsed request body (`request.json`, modelled as `Option Json`:
    `none` when the body is missing or not valid JSON),
  * the outcome of the single outbound `requests.post` call, modelled as an
    oracle value (`RemoteOutcome`): either a completed HTTP response
    (status code and text; `requests` does not raise on HTTP error statuses)
    or a raised exception carrying its message string.
The result records the HTTP response returned to the caller, the list of
log entries written via the `logging` module, and the list of outbound
requests issued.
-/

/-- JSON values as produced by Flask's JSON parsing of the request body.
Numbers are modelled as integers; none of the verified properties depends
on non-integral numerics. -/
inductive Json where
  | null : Json
  | bool (b : Bool) : Json
  | num (n : Int) : Json
  | str (s : String) : Json
  | arr (elems : List Json) : Json
  | obj (fields : List (String × Json)) : Json

/-- Python truthiness of a parsed JSON value, as tested by `if not data:`
(line 17): `None`, `False`, `0`, `""`, `[]` and `{}` are falsy, everything
else is truthy. -/
def Json.truthy : Json → Bool
  | .null => false
  | .bool b => b
  | .num n => n != 0
  | .str s => s != ""
  | .arr elems => !elems.isEmpty
  | .obj fields => !fields.isEmpty

/-- Python `not data` for `data = request.json` (line 16-17): true when the
body is missing or unparseable (`data is None`) or parses to a falsy value. -/
def pyFalsy : Option Json → Bool
  | none => true
  | some j => !j.truthy

/-- Outcome of the single `requests.post(REMOTE_BASE_URL, json=data, timeout=10)`
call (line 28). `requests.post` returns normally for every completed HTTP
exchange whatever the remote status code; it raises only on failures such as
timeouts and connection errors. -/
inductive RemoteOutcome where
  | ok (status : Nat) (text : String) : RemoteOutcome
  | exn (msg : String) : RemoteOutcome

/-- One entry written to the log via the `logging` module, recorded
structurally with the arguments interpolated into each call:
`receipt` is `logging.info` at line 23, `forwardOk` is `logging.info` at
line 31, `forwardErr` is `logging.error` at line 33. -/
inductive LogEntry where
  | receipt (timestamp : String) (data : Json) : LogEntry
  | forwardOk (timestamp : String) (url : String) (status : Nat) (text : String) : LogEntry
  | forwardErr (timestamp : String) (err : String) : LogEntry

/-- An outbound HTTP POST issued by the handler (line 28): target URL,
JSON payload, timeout in seconds. -/
structure ForwardRequest where
  url : String
  payload : Json
  timeoutSecs : Nat

/-- The HTTP response returned to the caller: status code and JSON body
(the `jsonify(...)` argument). -/
structure HttpResponse where
  status : Nat
  body : Json

/-- Everything observable about one run of the handler: the caller-visible
response, the log entries written (in order), and the outbound requests
issued (in order). -/
structure HandlerResult where
  response : HttpResponse
  logs : List LogEntry
  forwarded : List ForwardRequest

/-- Line 12: the fixed remote URL the payload is forwarded to. -/
def REMOTE_BASE_URL : String :=
  "https://ruojp8phda.execute-api.us-east-1.amazonaws.com/prod/"

/-- The handler `webhook` (lines 15-36 of `src/webhook_server.py`).

`body` is `request.json` (`none` when missing or not valid JSON);
`remote` is the outcome of the outbound call, consulted only if the call
is issued. Control flow mirrors the source: reject falsy bodies with 400;
log receipt; issue the forwarding POST; on an exception, log the error and
return 500; otherwise log the remote status and text and return 200. -/
def webhook (timestamp : String) (body : Option Json) (remote : RemoteOutcome) :
    HandlerResult :=
  match body with
  | none =>
      { response := ⟨400, .obj [("error", .str "Invalid JSON payload")]⟩
        logs := [], forwarded := [] }
  | some data =>
      if !data.truthy then
        { response := ⟨400, .obj [("error", .str "Invalid JSON payload")]⟩
          logs := [], forwarded := [] }
      else
        let receiptLog := LogEntry.receipt timestamp data
        let req : ForwardRequest := ⟨REMOTE_BASE_URL, data, 10⟩
        match remote with
        | .ok remoteStatus remoteText =>
            { response := ⟨200, .obj [("status", .str "success"),
                ("message", .str "Alert received and forwarded"),
                ("remote_status", .num remoteStatus)]⟩
              logs := [receiptLog,
                LogEntry.forwardOk timestamp REMOTE_BASE_URL remoteStatus remoteText]
              forwarded := [req] }
        | .exn msg =>
            { response := ⟨500, .obj [("status", .str "error"),
                ("message", .str "Failed to forward to remote"),
                ("error", .str msg)]⟩
              logs := [receiptLog, LogEntry.forwardErr timestamp msg]
              forwarded := [req] }

/-- The 400 rejection body `jsonify({'error': 'Invalid JSON payload'})`. -/
def rejectBody : Json := .obj [("error", .str "Invalid JSON payload")]

/-- Whether a log entry is the receipt entry (line 23). -/
def LogEntry.isReceipt : LogEntry → Bool
  | .receipt _ _ => true
  | _ => false

/-- Whether a log entry records the forwarding outcome (line 31 or 33). -/
def LogEntry.isOutcome : LogEntry → Bool
  | .forwardOk _ _ _ _ => true
  | .forwardErr _ _ => true
  | _ => false

/-- Whether a JSON object has a field of the given name (top level). -/
def Json.hasField : Json → String → Bool
  | .obj fields, k => fields.any (fun kv => kv.1 == k)
  | _, _ => false

example : (webhook "ts" (some (.obj [("a", .num 1)])) (.ok 200 "ok")).response.status
    = 200 := rfl

example : (webhook "ts" none (.ok 200 "ok")).response.status = 400 := rfl

example : (webhook "ts" (some (.obj [])) (.ok 200 "ok")).response.status = 400 := rfl

example : (webhook "ts" (some (.num 5)) (.exn "timeout")).response.status = 500 := rfl

/-- Helper: any issued forwarding request targets the fixed URL with a
10-second timeout and carries exactly the parsed inbound body. -/
lemma mem_forwarded (ts : String) (b : Option Json) (r : RemoteOutcome)
    (req : ForwardRequest) (h : req ∈ (webhook ts b r).forwarded) :
    req.url = REMOTE_BASE_URL ∧ req.timeoutSecs = 10 ∧ b = some req.payload := by
  cases b with
  | none => simp [webhook] at h
  | some data =>
    cases hd : data.truthy with
    | false => simp [webhook, hd] at h
    | true =>
      cases r with
      | ok c t =>
        simp [webhook, hd] at h
        subst h
        exact ⟨rfl, rfl, rfl⟩
      | exn m =>
        simp [webhook, hd] at h
        subst h
        exact ⟨rfl, rfl, rfl⟩

/-- Claim C1, counterexample: the empty JSON object is a valid JSON body,
yet the handler answers HTTP 400 with the Invalid-JSON body and issues no
forwarding request, refuting both directions of the claim at this input. -/
theorem C1_counterexample :
    (webhook "2026-01-01 00:00:00" (some (Json.obj []))
        (RemoteOutcome.ok 200 "ok")).response.status = 400
    ∧ (webhook "2026-01-01 00:00:00" (some (Json.obj []))
        (RemoteOutcome.ok 200 "ok")).response.body = rejectBody
    ∧ (webhook "2026-01-01 00:00:00" (some (Json.obj []))
        (RemoteOutcome.ok 200 "ok")).forwarded = []
    ∧ (webhook "2026-01-01 00:00:00" (some (Json.obj []))
        (RemoteOutcome.ok 200 "ok")).logs = [] :=
  ⟨rfl, rfl, rfl, rfl⟩

/-- Claim C1 (amended): the handler answers HTTP 400 with the Invalid-JSON
body if and only if the parsed body is missing, invalid, or a falsy JSON
value; in that case nothing is forwarded and nothing is logged, and for
every truthy JSON body the handler logs receipt and issues the forward. -/
theorem C1_amended (ts : String) (b : Option Json) (r : RemoteOutcome) :
    ((webhook ts b r).response = ⟨400, rejectBody⟩ ↔ pyFalsy b = true)
    ∧ (pyFalsy b = true →
        (webhook ts b r).forwarded = [] ∧ (webhook ts b r).logs = [])
    ∧ (pyFalsy b = false →
        (webhook ts b r).logs.countP (fun e => e.isReceipt) = 1
        ∧ (webhook ts b r).forwarded.map (fun q => q.payload) = b.toList) := by
  cases b with
  | none =>
    refine ⟨by simp [webhook, pyFalsy, rejectBody], fun _ => ⟨rfl, rfl⟩, fun hc => ?_⟩
    simp [pyFalsy] at hc
  | some data =>
    cases hd : data.truthy with
    | false =>
      refine ⟨by simp [webhook, pyFalsy, hd, rejectBody], fun _ => ?_, fun hc => ?_⟩
      · constructor <;> simp [webhook, hd]
      · simp [pyFalsy, hd] at hc
    | true =>
      refine ⟨?_, fun hc => ?_, fun _ => ?_⟩
      · cases r <;>
          simp [webhook, pyFalsy, hd, rejectBody, HttpResponse.mk.injEq]
      · simp [pyFalsy, hd] at hc
      · cases r <;>
          simp [webhook, hd, LogEntry.isReceipt, LogEntry.isOutcome,
            List.countP_cons]

/-- Claim C1, witness: instantiating the amended claim at a truthy body. -/
theorem C1_witness :
    (webhook "t0" (some (Json.num 1)) (RemoteOutcome.ok 200 "x")).logs.countP
        (fun e => e.isReceipt) = 1
    ∧ (webhook "t0" (some (Json.num 1)) (RemoteOutcome.ok 200 "x")).forwarded.map
        (fun q => q.payload) = (some (Json.num 1)).toList := by
  have h := C1_amended "t0" (some (Json.num 1)) (RemoteOutcome.ok 200 "x")
  exact h.2.2 rfl

/-- Claim C2, counterexample: the remote completes the exchange with HTTP
status 503, `requests.post` does not raise, and the caller receives HTTP 200
success, not HTTP 500 — refuting the claim at this input. -/
theorem C2_counterexample :
    (webhook "t1" (some (Json.obj [("side", Json.str "buy")]))
        (RemoteOutcome.ok 503 "Service Unavailable")).response.status = 200 := rfl

/-- Claim C2 (amended): only a forwarding attempt that raises an exception
(network failure, timeout) is surfaced as HTTP 500 carrying the error text;
a completed exchange is always answered HTTP 200 success, whatever the
remote HTTP status code, which is merely reported in the body. -/
theorem C2_amended (ts : String) (j : Json) (h : j.truthy = true) :
    (∀ msg, (webhook ts (some j) (RemoteOutcome.exn msg)).response
        = ⟨500, .obj [("status", .str "error"),
            ("message", .str "Failed to forward to remote"),
            ("error", .str msg)]⟩)
    ∧ (∀ c t, (webhook ts (some j) (RemoteOutcome.ok c t)).response
        = ⟨200, .obj [("status", .str "success"),
            ("message", .str "Alert received and forwarded"),
            ("remote_status", .num c)]⟩) := by
  constructor
  · intro msg
    simp [webhook, h]
  · intro c t
    simp [webhook, h]

/-- Claim C2, witness: the amended claim at a concrete truthy body, a
concrete exception and a concrete remote error status. -/
theorem C2_witness :
    (webhook "t1" (some (Json.num 1)) (RemoteOutcome.exn "timed out")).response.status
        = 500
    ∧ (webhook "t1" (some (Json.num 1)) (RemoteOutcome.ok 503 "x")).response.status
        = 200 := by
  have h := C2_amended "t1" (Json.num 1) rfl
  exact ⟨by rw [h.1 "timed out"], by rw [h.2 503 "x"]⟩

/-- Claim C3 (confirmed): whenever the forwarding POST is issued and
completes with remote status `c` and text `t`, the handler logs them and
answers HTTP 200 with the success body carrying `remote_status = c`. -/
theorem C3_success_response (ts : String) (b : Option Json) (c : Nat) (t : String)
    (h : (webhook ts b (RemoteOutcome.ok c t)).forwarded ≠ []) :
    (webhook ts b (RemoteOutcome.ok c t)).response
      = ⟨200, .obj [("status", .str "success"),
          ("message", .str "Alert received and forwarded"),
          ("remote_status", .num c)]⟩
    ∧ LogEntry.forwardOk ts REMOTE_BASE_URL c t
        ∈ (webhook ts b (RemoteOutcome.ok c t)).logs := by
  cases b with
  | none => exact absurd rfl h
  | some data =>
    cases hd : data.truthy with
    | false =>
      refine absurd ?_ h
      simp [webhook, hd]
    | true =>
      constructor
      · simp [webhook, hd]
      · simp [webhook, hd]

/-- Claim C3, witness: the success path at a concrete request. -/
theorem C3_witness :
    (webhook "t2" (some (Json.num 2)) (RemoteOutcome.ok 200 "OK")).response
      = ⟨200, .obj [("status", .str "success"),
          ("message", .str "Alert received and forwarded"),
          ("remote_status", .num 200)]⟩
    ∧ LogEntry.forwardOk "t2" REMOTE_BASE_URL 200 "OK"
        ∈ (webhook "t2" (some (Json.num 2)) (RemoteOutcome.ok 200 "OK")).logs :=
  C3_success_response "t2" (some (Json.num 2)) 200 "OK" (List.cons_ne_nil _ _)

/-- Claim C4 (confirmed): whenever the forwarding POST is issued and raises
a failure with detail `d`, the handler logs the error and answers HTTP 500
with the error body carrying `d`. -/
theorem C4_failure_response (ts : String) (b : Option Json) (d : String)
    (h : (webhook ts b (RemoteOutcome.exn d)).forwarded ≠ []) :
    (webhook ts b (RemoteOutcome.exn d)).response
      = ⟨500, .obj [("status", .str "error"),
          ("message", .str "Failed to forward to remote"),
          ("error", .str d)]⟩
    ∧ LogEntry.forwardErr ts d ∈ (webhook ts b (RemoteOutcome.exn d)).logs := by
  cases b with
  | none => exact absurd rfl h
  | some data =>
    cases hd : data.truthy with
    | false =>
      refine absurd ?_ h
      simp [webhook, hd]
    | true =>
      constructor
      · simp [webhook, hd]
      · simp [webhook, hd]

/-- Claim C4, witness: the failure path at a concrete timeout. -/
theorem C4_witness :
    (webhook "t3" (some (Json.num 3))
        (RemoteOutcome.exn "HTTPSConnectionPool: Read timed out.")).response
      = ⟨500, .obj [("status", .str "error"),
          ("message", .str "Failed to forward to remote"),
          ("error", .str "HTTPSConnectionPool: Read timed out.")]⟩
    ∧ LogEntry.forwardErr "t3" "HTTPSConnectionPool: Read timed out."
        ∈ (webhook "t3" (some (Json.num 3))
            (RemoteOutcome.exn "HTTPSConnectionPool: Read timed out.")).logs :=
  C4_failure_response "t3" (some (Json.num 3))
    "HTTPSConnectionPool: Read timed out." (List.cons_ne_nil _ _)

/-- Claim C5 (confirmed): every issued forwarding request carries a payload
equal to the parsed inbound JSON body — the payload is passed through
unchanged (round-trip equality of the JSON value). -/
theorem C5_payload_unchanged (ts : String) (b : Option Json) (r : RemoteOutcome)
    (req : ForwardRequest) (h : req ∈ (webhook ts b r).forwarded) :
    b = some req.payload :=
  (mem_forwarded ts b r req h).2.2

/-- Claim C5, witness: the pass-through at a concrete payload. -/
theorem C5_witness :
    (some (Json.arr [Json.num 7]) : Option Json)
      = some ((⟨REMOTE_BASE_URL, Json.arr [Json.num 7], 10⟩ : ForwardRequest).payload) :=
  C5_payload_unchanged "t4" (some (Json.arr [Json.num 7])) (RemoteOutcome.ok 200 "")
    ⟨REMOTE_BASE_URL, Json.arr [Json.num 7], 10⟩ (List.mem_singleton.mpr rfl)

/-- Claim C6, counterexample: a request with a missing or invalid body is
received by the handler yet produces zero log entries, refuting the claim
that every received request produces exactly one receipt entry. -/
theorem C6_counterexample :
    (webhook "t5" none (RemoteOutcome.ok 200 "ok")).logs = [] := rfl

/-- Claim C6 (amended): receipt entries and outcome entries each number
exactly one per forwarding attempt, the log holds nothing else, and one
forwarding attempt is made exactly when the body passes the falsiness
check; requests rejected with HTTP 400 produce no log entries at all. -/
theorem C6_amended (ts : String) (b : Option Json) (r : RemoteOutcome) :
    ((webhook ts b r).logs.countP (fun e => e.isReceipt)
        = (webhook ts b r).forwarded.length)
    ∧ ((webhook ts b r).logs.countP (fun e => e.isOutcome)
        = (webhook ts b r).forwarded.length)
    ∧ ((webhook ts b r).logs.length = 2 * (webhook ts b r).forwarded.length)
    ∧ ((webhook ts b r).forwarded.length = if pyFalsy b = true then 0 else 1) := by
  cases b with
  | none => exact ⟨rfl, rfl, rfl, rfl⟩
  | some data =>
    cases hd : data.truthy with
    | false =>
      cases r <;>
        simp [webhook, pyFalsy, hd]
    | true =>
      cases r <;>
        simp [webhook, pyFalsy, hd, LogEntry.isReceipt, LogEntry.isOutcome,
          List.countP_cons]

/-- Claim C7 (confirmed): every outbound forwarding request targets the one
fixed remote URL, which is an HTTPS URL, carries the parsed inbound JSON
body, and uses a 10-second timeout. -/
theorem C7_outbound_call (ts : String) (b : Option Json) (r : RemoteOutcome)
    (req : ForwardRequest) (h : req ∈ (webhook ts b r).forwarded) :
    req.url = REMOTE_BASE_URL
    ∧ (∃ rest, req.url = "https://" ++ rest)
    ∧ req.timeoutSecs = 10
    ∧ b = some req.payload := by
  obtain ⟨hurl, htimeout, hbody⟩ := mem_forwarded ts b r req h
  refine ⟨hurl, ⟨"ruojp8phda.execute-api.us-east-1.amazonaws.com/prod/", ?_⟩,
    htimeout, hbody⟩
  rw [hurl]
  rfl

/-- Claim C7, witness: the outbound-call shape at a concrete request. -/
theorem C7_witness :
    (⟨REMOTE_BASE_URL, Json.num 9, 10⟩ : ForwardRequest).url = REMOTE_BASE_URL
    ∧ (∃ rest, (⟨REMOTE_BASE_URL, Json.num 9, 10⟩ : ForwardRequest).url
        = "https://" ++ rest)
    ∧ (⟨REMOTE_BASE_URL, Json.num 9, 10⟩ : ForwardRequest).timeoutSecs = 10
    ∧ (some (Json.num 9) : Option Json)
        = some ((⟨REMOTE_BASE_URL, Json.num 9, 10⟩ : ForwardRequest).payload) :=
  C7_outbound_call "t6" (some (Json.num 9)) (RemoteOutcome.ok 200 "")
    ⟨REMOTE_BASE_URL, Json.num 9, 10⟩ (List.mem_singleton.mpr rfl)

/-- Claim C8 (confirmed): the handler never issues more than one outbound
forwarding request for an inbound request, whatever the body and whatever
the outcome of the single attempt. -/
theorem C8_single_attempt (ts : String) (b : Option Json) (r : RemoteOutcome) :
    (webhook ts b r).forwarded.length ≤ 1 := by
  cases b with
  | none => exact Nat.zero_le 1
  | some data =>
    cases hd : data.truthy with
    | false =>
      cases r <;> simp [webhook, hd]
    | true =>
      cases r <;> simp [webhook, hd]

/-- Claim C9 (confirmed): every response has exactly one of the three
shapes — 400 with the single-field error body, 500 with the three-field
failure body, or 200 with the three-field success body — and the
`remote_status` field is present exactly in the HTTP 200 responses. -/
theorem C9_response_shapes (ts : String) (b : Option Json) (r : RemoteOutcome) :
    (((webhook ts b r).response.status = 400
        ∧ (webhook ts b r).response.body = rejectBody)
      ∨ ((webhook ts b r).response.status = 500
        ∧ ∃ d, (webhook ts b r).response.body
            = .obj [("status", .str "error"),
                ("message", .str "Failed to forward to remote"),
                ("error", .str d)])
      ∨ ((webhook ts b r).response.status = 200
        ∧ ∃ c : Nat, (webhook ts b r).response.body
            = .obj [("status", .str "success"),
                ("message", .str "Alert received and forwarded"),
                ("remote_status", .num c)]))
    ∧ ((webhook ts b r).response.body.hasField "remote_status" = true
        ↔ (webhook ts b r).response.status = 200) := by
  cases b with
  | none =>
    refine ⟨Or.inl ⟨rfl, rfl⟩, ?_⟩
    simp [webhook, Json.hasField, rejectBody]
  | some data =>
    cases hd : data.truthy with
    | false =>
      refine ⟨Or.inl ?_, ?_⟩
      · constructor <;> simp [webhook, hd, rejectBody]
      · simp [webhook, hd, Json.hasField]
    | true =>
      cases r with
      | ok c t =>
        refine ⟨Or.inr (Or.inr ⟨?_, c, ?_⟩), ?_⟩
        · simp [webhook, hd]
        · simp [webhook, hd]
        · simp [webhook, hd, Json.hasField]
      | exn m =>
        refine ⟨Or.inr (Or.inl ⟨?_, m, ?_⟩), ?_⟩
        · simp [webhook, hd]
        · simp [webhook, hd]
        · simp [webhook, hd, Json.hasField]

/-- Claim C10 (confirmed): the caller-visible response is invariant under
the remote response text — two completed exchanges with the same remote
status but different bodies yield identical responses to the caller. -/
theorem C10_remote_text_invariance (ts : String) (b : Option Json) (c : Nat)
    (t1 t2 : String) :
    (webhook ts b (RemoteOutcome.ok c t1)).response
      = (webhook ts b (RemoteOutcome.ok c t2)).response := by
  cases b with
  | none => rfl
  | some data =>
    cases hd : data.truthy with
    | false => simp [webhook, hd]
    | true => simp [webhook, hd]
